import Mathlib

/-!
Verification of the contact-book backend: the validation middleware
(`backend/middleware/validation.js`), the service-level business validation
(`contactService.js`), the error-handling middleware (`errorHandler.js`) and
the service orchestration around the repository (`contactRepository.js`).

JavaScript values appearing in request payloads are modelled by `JSVal`;
JS numbers are modelled as exact integers (exact for magnitudes below 2^53).
Strings are modelled as Lean `String`s (code points; identical to JS code
units on ASCII data, which is all the validators' fixed alphabets use).
-/

namespace ContactBook

/-- Whitespace characters recognised by the JS regexp class `\s` and by
`String.prototype.trim` (ASCII subset). -/
def jsWs (c : Char) : Bool :=
  c == ' ' || c == '\t' || c == '\n' || c == '\r' ||
  c == Char.ofNat 11 || c == Char.ofNat 12

/-- Substring occurrence over character lists, used to model
`String.prototype.includes`. -/
def occursIn (pat : List Char) : List Char → Bool
  | [] => pat.isEmpty
  | c :: rest => List.isPrefixOf pat (c :: rest) || occursIn pat rest

/-- Model of `s.includes(pat)` for JS strings. -/
def strIncludes (s pat : String) : Bool :=
  occursIn pat.toList s.toList

/-- Model of `s.toLowerCase()` (ASCII). -/
def lowerStr (s : String) : String :=
  String.mk (s.toList.map Char.toLower)

/-- Trim `jsWs` characters from both ends of a character list. -/
def trimChars (l : List Char) : List Char :=
  ((l.dropWhile jsWs).reverse.dropWhile jsWs).reverse

/-- Model of `s.trim()`. -/
def jsTrim (s : String) : String :=
  String.mk (trimChars s.toList)

/-- Fuelled decimal rendering of a natural number, most significant digit
first.  The fuel is only a structural-recursion device; `natToDec` always
supplies enough. -/
def natToDecAux : Nat → Nat → List Char
  | 0, _ => []
  | fuel + 1, n =>
    if n < 10 then [Nat.digitChar n]
    else natToDecAux fuel (n / 10) ++ [Nat.digitChar (n % 10)]

/-- Decimal digit string of a natural number. -/
def natToDec (n : Nat) : List Char :=
  natToDecAux (n + 1) n

/-- Canonical decimal representation of a natural number, modelling
`Number.prototype.toString` on non-negative integers. -/
def natToString (n : Nat) : String :=
  String.mk (natToDec n)

/-- Model of `Number.prototype.toString` on integers of magnitude below
`10^21`, the range JS renders in plain decimal.  Used only for the regexp
coercion of non-string payload values in the service email check; the id
validator handles the exponential-notation range explicitly. -/
def intToString (i : Int) : String :=
  if i < 0 then "-" ++ natToString i.natAbs else natToString i.toNat

/-- Longest leading run of decimal digits. -/
def leadDigits : List Char → List Char
  | [] => []
  | c :: rest => if c.isDigit then c :: leadDigits rest else []

/-- Numeric value of a list of decimal digit characters. -/
def digitsVal (l : List Char) : Nat :=
  l.foldl (fun a c => 10 * a + (c.toNat - 48)) 0

/-- Parse the leading digit run of a character list; `none` when there is no
digit, modelling the `NaN` outcome of `parseInt`. -/
def parseNatPart (l : List Char) : Option Nat :=
  if leadDigits l = [] then none else some (digitsVal (leadDigits l))

/-- Sign-and-digit part of `parseInt`, applied after leading whitespace is
skipped: an optional `+`/`-` sign, then the longest digit run. -/
def parseIntChars : List Char → Option Int
  | [] => none
  | c :: r =>
    if c = '+' then (parseNatPart r).map (fun n => (n : Int))
    else if c = '-' then (parseNatPart r).map (fun n => -(n : Int))
    else (parseNatPart (c :: r)).map (fun n => (n : Int))

/-- The exact mathematical value read by `parseInt(s, 10)`: skip leading
whitespace, take an optional sign, then the longest digit run; `none`
models `NaN`.  The double actually produced by the JS engine is this value
rounded to 53 significant bits; `validateId` applies that rounding through
`jsParsedValue`. -/
def parseInt10 (s : String) : Option Int :=
  parseIntChars (s.toList.dropWhile jsWs)

/-- Fuelled bit length of a natural number (`0` for `0`); the fuel is only
a structural-recursion device and is always sufficient. -/
def bitLenAux : Nat → Nat → Nat
  | 0, _ => 0
  | f + 1, n => if n = 0 then 0 else bitLenAux f (n / 2) + 1

/-- Bit length of a natural number. -/
def bitLen (n : Nat) : Nat := bitLenAux (n + 1) n

/-- Round a natural number to the nearest IEEE-754 double (53 significant
bits, ties to even), the value a JS engine stores for an integer of this
magnitude: below `2^53` every integer is exact; above, the excess low bits
are rounded away. -/
def roundDouble (n : Nat) : Nat :=
  if n < 2 ^ 53 then n
  else
    let k := bitLen n - 53
    let q := n / 2 ^ k
    let r := n % 2 ^ k
    if 2 ^ (k - 1) < r ∨ (r = 2 ^ (k - 1) ∧ q % 2 = 1) then (q + 1) * 2 ^ k
    else q * 2 ^ k

/-- The double `parseInt` actually yields for the exact mathematical value
`k` of the sign-and-digit prefix: the magnitude rounded to 53 significant
bits, sign preserved. -/
def jsParsedValue (k : Int) : Int :=
  if k < 0 then -(roundDouble k.natAbs : Int) else (roundDouble k.natAbs : Int)

/-- JavaScript values that can occur in a JSON request body field. -/
inductive JSVal where
  | undef
  | null
  | str (s : String)
  | num (n : Int)
  | bool (b : Bool)
deriving DecidableEq

/-- JS truthiness of a value. -/
def JSVal.truthy : JSVal → Bool
  | .undef => false
  | .null => false
  | .str s => !(s == "")
  | .num n => !(n == 0)
  | .bool b => b

/-- Whether `typeof v === 'string'`. -/
def JSVal.isStr : JSVal → Bool
  | .str _ => true
  | _ => false

/-- The carried string of a string value (only read under `isStr`). -/
def JSVal.asStr : JSVal → String
  | .str s => s
  | _ => ""

/-- JS string coercion, as performed by `RegExp.prototype.test` on a
non-string argument. -/
def jsToString : JSVal → String
  | .undef => "undefined"
  | .null => "null"
  | .str s => s
  | .num n => intToString n
  | .bool b => if b then "true" else "false"

/-- Model of `v.length > k`: only strings have a `length` property, for any
other value the comparison `undefined > k` is false. -/
def jsLenGT (v : JSVal) (k : Nat) : Bool :=
  match v with
  | .str s => decide (k < s.length)
  | _ => false

/-- The presence gate used for optional fields by both validators:
`v !== undefined && v !== null && v !== ''`. -/
def presentOpt : JSVal → Bool
  | .undef => false
  | .null => false
  | .str s => !(s == "")
  | _ => true

/-- Characters allowed inside an email by `^[^\s@]+@[^\s@]+\.[^\s@]+$`. -/
def emailCharOk (c : Char) : Bool :=
  !(jsWs c) && c != '@'

/-- Model of `isValidEmail` in `validation.js`: the test of the regexp
`^[^\s@]+@[^\s@]+\.[^\s@]+$` (also the inline `emailRegex` of the service).
The string must split as `a@t` with `a`, `t` non-empty and free of
whitespace and `@`, and `t` must contain a dot that is neither its first
nor its last character. -/
def isValidEmail (s : String) : Bool :=
  let cs := s.toList
  let a := cs.takeWhile (fun c => c != '@')
  match cs.dropWhile (fun c => c != '@') with
  | '@' :: t =>
    !(a.isEmpty) && a.all emailCharOk && !(t.isEmpty) && t.all emailCharOk &&
    ((t.drop 1).dropLast.contains '.')
  | _ => false

/-- Characters allowed by the phone regexp class `[\d\s\-\+\(\)]`. -/
def phoneCharOk (c : Char) : Bool :=
  c.isDigit || jsWs c || c == '-' || c == '+' || c == '(' || c == ')'

/-- Model of `isValidPhone` in `validation.js`: the string matches
`^[\d\s\-\+\(\)]+$` and contains at least 10 digit characters. -/
def isValidPhone (s : String) : Bool :=
  let cs := s.toList
  !(cs.isEmpty) && cs.all phoneCharOk &&
  decide (10 ≤ (cs.filter Char.isDigit).length)

/-- One entry of a validation `details` array. -/
structure FieldError where
  field : String
  message : String
deriving DecidableEq

/-- The list contribution of one field check: one `{field, message}` entry
when the check produced a message. -/
def fieldErrOf (f : String) (m : Option String) : List FieldError :=
  match m with
  | none => []
  | some msg => [⟨f, msg⟩]

/-- Middleware check for a required name field (`firstName` / `lastName` in
`validateContact`): required, string, trim-nonempty, max length. -/
def requiredFieldMw (v : JSVal) (reqM typeM emptyM longM : String) (maxLen : Nat) :
    Option String :=
  if v.truthy = false then some reqM
  else if v.isStr = false then some typeM
  else if jsTrim v.asStr = "" then some emptyM
  else if maxLen < v.asStr.length then some longM
  else none

/-- Middleware `firstName` check. -/
def firstNameMsgMw (v : JSVal) : Option String :=
  requiredFieldMw v "First name is required" "First name must be a string"
    "First name cannot be empty" "First name must not exceed 50 characters" 50

/-- Middleware `lastName` check. -/
def lastNameMsgMw (v : JSVal) : Option String :=
  requiredFieldMw v "Last name is required" "Last name must be a string"
    "Last name cannot be empty" "Last name must not exceed 50 characters" 50

/-- Middleware `email` check: optional; when present it must be a string of
valid shape (no length bound at this layer). -/
def emailMsgMw (v : JSVal) : Option String :=
  if presentOpt v = true then
    if v.isStr = false then some "Email must be a string"
    else if isValidEmail v.asStr = false then some "Invalid email format"
    else none
  else none

/-- Middleware `phone` check. -/
def phoneMsgMw (v : JSVal) : Option String :=
  if presentOpt v = true then
    if v.isStr = false then some "Phone must be a string"
    else if isValidPhone v.asStr = false then some "Invalid phone format"
    else none
  else none

/-- Middleware `company` check. -/
def companyMsgMw (v : JSVal) : Option String :=
  if presentOpt v = true then
    if v.isStr = false then some "Company must be a string"
    else if 100 < v.asStr.length then some "Company must not exceed 100 characters"
    else none
  else none

/-- Middleware `notes` check. -/
def notesMsgMw (v : JSVal) : Option String :=
  if presentOpt v = true then
    if v.isStr = false then some "Notes must be a string"
    else if 500 < v.asStr.length then some "Notes must not exceed 500 characters"
    else none
  else none

/-- A request payload: the six contact fields as raw JS values (`undef`
models an absent property). -/
structure Payload where
  firstName : JSVal
  lastName : JSVal
  email : JSVal
  phone : JSVal
  company : JSVal
  notes : JSVal
deriving DecidableEq

/-- The middleware rule set `validateContact` of `validation.js`: the
ordered list of violations accumulated by the six field checks. -/
def validateContact (p : Payload) : List FieldError :=
  fieldErrOf "firstName" (firstNameMsgMw p.firstName) ++
  fieldErrOf "lastName" (lastNameMsgMw p.lastName) ++
  fieldErrOf "email" (emailMsgMw p.email) ++
  fieldErrOf "phone" (phoneMsgMw p.phone) ++
  fieldErrOf "company" (companyMsgMw p.company) ++
  fieldErrOf "notes" (notesMsgMw p.notes)

/-- Service check for a required name field in `validateContactData`:
`!v || typeof v !== 'string'` yields the required message, then
trim-nonempty and max length. -/
def requiredFieldSvc (v : JSVal) (reqM emptyM longM : String) (maxLen : Nat) :
    Option String :=
  if v.truthy = false ∨ v.isStr = false then some reqM
  else if jsTrim v.asStr = "" then some emptyM
  else if maxLen < v.asStr.length then some longM
  else none

/-- Service `firstName` check. -/
def firstNameMsgSvc (v : JSVal) : Option String :=
  requiredFieldSvc v "First name is required" "First name cannot be empty"
    "First name must not exceed 50 characters" 50

/-- Service `lastName` check. -/
def lastNameMsgSvc (v : JSVal) : Option String :=
  requiredFieldSvc v "Last name is required" "Last name cannot be empty"
    "Last name must not exceed 50 characters" 50

/-- Service `email` check: `emailRegex.test(v)` (which coerces non-strings
to strings) and then `v.length > 100`. -/
def emailMsgSvc (v : JSVal) : Option String :=
  if presentOpt v = true then
    if isValidEmail (jsToString v) = false then some "Invalid email format"
    else if jsLenGT v 100 then some "Email must not exceed 100 characters"
    else none
  else none

/-- Service `phone` check: only `v.length > 20`. -/
def phoneMsgSvc (v : JSVal) : Option String :=
  if presentOpt v = true then
    if jsLenGT v 20 then some "Phone must not exceed 20 characters" else none
  else none

/-- Service `company` check: only `v.length > 100`. -/
def companyMsgSvc (v : JSVal) : Option String :=
  if presentOpt v = true then
    if jsLenGT v 100 then some "Company must not exceed 100 characters" else none
  else none

/-- Service `notes` check: only `v.length > 500`. -/
def notesMsgSvc (v : JSVal) : Option String :=
  if presentOpt v = true then
    if jsLenGT v 500 then some "Notes must not exceed 500 characters" else none
  else none

/-- The service rule set `validateContactData` of `contactService.js`. -/
def validateContactData (p : Payload) : List FieldError :=
  fieldErrOf "firstName" (firstNameMsgSvc p.firstName) ++
  fieldErrOf "lastName" (lastNameMsgSvc p.lastName) ++
  fieldErrOf "email" (emailMsgSvc p.email) ++
  fieldErrOf "phone" (phoneMsgSvc p.phone) ++
  fieldErrOf "company" (companyMsgSvc p.company) ++
  fieldErrOf "notes" (notesMsgSvc p.notes)

/-- Outcome of the `validateId` middleware: proceed to the next handler, or
answer with an error status, body `error` string and `details` array. -/
inductive IdResult where
  | pass
  | fail (status : Nat) (error : String) (details : List FieldError)
deriving DecidableEq

/-- The `validateId` middleware of `validation.js` applied to the raw path
parameter string: `!id` answers the is-required error, otherwise
`parseInt(id, 10)` must be a positive integer whose `toString()` rendering
is the parameter itself.  The parsed number is an IEEE double: the exact
digit value is rounded by `jsParsedValue`, and the round-trip comparison
runs against the rounded value.  `Number.prototype.toString` renders
magnitudes below `10^21` in plain decimal; at `10^21` and above it uses
exponential notation (or `Infinity` beyond the double range), whose
rendering has `.` or `e` within its first two characters and therefore can
never equal the at-least-22-digit prefix that parsed to such a value — the
round-trip comparison always fails there, which the model encodes as the
middle disjunct. -/
def validateId (id : String) : IdResult :=
  if id = "" then
    .fail 400 "Validation failed" [⟨"id", "ID parameter is required"⟩]
  else
    match parseInt10 id with
    | none => .fail 400 "Validation failed" [⟨"id", "ID must be a positive integer"⟩]
    | some k =>
      if jsParsedValue k ≤ 0 ∨ 10 ^ 21 ≤ (jsParsedValue k).toNat ∨
          natToString (jsParsedValue k).toNat ≠ id then
        .fail 400 "Validation failed" [⟨"id", "ID must be a positive integer"⟩]
      else .pass

/-- An error value as seen by `errorHandler.js`: the optional `statusCode`,
`status`, `message` and `code` properties (`none` models an absent or
non-string property), the `isOperational` flag set by `AppError`, and the
optional `details` array. -/
structure ErrObj where
  statusCode : Option Nat
  status : Option Nat
  message : Option String
  code : Option String
  isOperational : Bool
  details : Option (List FieldError)
deriving DecidableEq

/-- JS truthiness of an optional numeric property (absent and `0` are
falsy). -/
def truthyNum : Option Nat → Bool
  | none => false
  | some n => !(n == 0)

/-- The `getStatusCode` classifier of `errorHandler.js`.  The result `none`
models the `TypeError` thrown by `err.message.toLowerCase()` when the error
has no string `message`; `some sc` is a returned status code. -/
def getStatusCode (e : ErrObj) : Option Nat :=
  if truthyNum e.statusCode then some (e.statusCode.getD 0)
  else if truthyNum e.status then some (e.status.getD 0)
  else
    match e.message with
    | none => none
    | some msg =>
      let m := lowerStr msg
      if strIncludes m "not found" || strIncludes m "does not exist" then some 404
      else if strIncludes m "validation" || strIncludes m "invalid" ||
              strIncludes m "required" then some 400
      else if e.code = some "23505" then some 409
      else if e.code = some "23503" then some 400
      else if e.code = some "23502" then some 400
      else if strIncludes m "unauthorized" || strIncludes m "authentication" then some 401
      else if strIncludes m "forbidden" || strIncludes m "permission" then some 403
      else some 500

/-- The `sanitizeErrorMessage` function of `errorHandler.js`. -/
def sanitizeErrorMessage (e : ErrObj) (statusCode : Nat) : Option String :=
  if e.isOperational then e.message
  else if e.code = some "23505" then some "A record with this information already exists"
  else if e.code = some "23503" then some "Referenced record does not exist"
  else if e.code = some "23502" then some "Required field is missing"
  else if 400 ≤ statusCode ∧ statusCode < 500 then e.message
  else some "Internal server error"

/-- The JSON response produced by the error-handling middleware (production
mode: no stack or original message). -/
structure ErrResponse where
  status : Nat
  error : Option String
  details : Option (List FieldError)
deriving DecidableEq

/-- The `errorHandler` middleware of `errorHandler.js`: classify, sanitize,
and attach `details` exactly when a `details` property is present and the
status is 400.  The result `none` models the classifier itself throwing. -/
def errorHandler (e : ErrObj) : Option ErrResponse :=
  match getStatusCode e with
  | none => none
  | some sc =>
    some ⟨sc, sanitizeErrorMessage e sc,
          if e.details.isSome ∧ sc = 400 then e.details else none⟩

/-- A persisted contact row (timestamps omitted; no claim concerns them). -/
structure Contact where
  id : Nat
  firstName : JSVal
  lastName : JSVal
  email : JSVal
  phone : JSVal
  company : JSVal
  notes : JSVal
deriving DecidableEq

/-- The stored table, keyed by id. -/
def Store := Nat → Option Contact

/-- The repository's normalisation of optional fields: `v || null`. -/
def orNull (v : JSVal) : JSVal :=
  if v.truthy then v else .null

/-- The row written by the repository's `create`/`update` statements:
names verbatim, optional fields null-coalesced. -/
def rowOf (id : Nat) (p : Payload) : Contact :=
  ⟨id, p.firstName, p.lastName, orNull p.email, orNull p.phone,
   orNull p.company, orNull p.notes⟩

/-- One parameterized statement issued by `contactRepository.js`. -/
inductive RepoCall where
  | findById (id : Nat)
  | createRow (id : Nat)
  | updateRow (id : Nat)
  | deleteRow (id : Nat)
deriving DecidableEq

namespace ContactService

/-- The service's `create` of `contactService.js`: run
`validateContactData` first; a non-empty violation list raises a 400
validation error before any repository call, otherwise the repository
inserts the row.  Returns the outcome, the resulting store and the list of
repository calls issued. -/
def create (store : Store) (nextId : Nat) (d : Payload) :
    Except ErrObj Contact × Store × List RepoCall :=
  let errs := validateContactData d
  if errs = [] then
    let c := rowOf nextId d
    (.ok c, fun j => if j = nextId then some c else store j, [.createRow nextId])
  else
    (.error ⟨some 400, none, some "Validation failed", none, false, some errs⟩,
     store, [])

/-- The service's `update` of `contactService.js`: `findById` first (404
when absent), then `validateContactData` (400 on violations), then the
repository's update statement. -/
def update (store : Store) (id : Nat) (d : Payload) :
    Except ErrObj Contact × Store × List RepoCall :=
  match store id with
  | none =>
    (.error ⟨some 404, none, some "Contact not found", none, false, none⟩,
     store, [.findById id])
  | some _ =>
    let errs := validateContactData d
    if errs = [] then
      let c := rowOf id d
      (.ok c, fun j => if j = id then some c else store j,
       [.findById id, .updateRow id])
    else
      (.error ⟨some 400, none, some "Validation failed", none, false, some errs⟩,
       store, [.findById id])

end ContactService

/-! ### Helper lemmas about the violation lists -/

/-- Membership in one field chunk of a violation list. -/
theorem mem_fieldErrOf {e : FieldError} {f : String} {m : Option String} :
    e ∈ fieldErrOf f m ↔ ∃ msg, m = some msg ∧ e = ⟨f, msg⟩ := by
  cases m <;> simp [fieldErrOf]

/-- The field names contributed by one chunk form a sublist of the
singleton of its field name. -/
theorem map_fieldErrOf_sublist (f : String) (m : Option String) :
    List.Sublist ((fieldErrOf f m).map FieldError.field) [f] := by
  cases m <;> simp [fieldErrOf]

/-- The six field names, in rule-declaration order. -/
def fieldOrder : List String :=
  ["firstName", "lastName", "email", "phone", "company", "notes"]

theorem validateContact_field_sublist (p : Payload) :
    List.Sublist ((validateContact p).map FieldError.field) fieldOrder := by
  unfold validateContact fieldOrder
  simp only [List.map_append]
  exact (((((map_fieldErrOf_sublist _ _).append
    (map_fieldErrOf_sublist _ _)).append
    (map_fieldErrOf_sublist _ _)).append
    (map_fieldErrOf_sublist _ _)).append
    (map_fieldErrOf_sublist _ _)).append
    (map_fieldErrOf_sublist _ _)

theorem validateContactData_field_sublist (p : Payload) :
    List.Sublist ((validateContactData p).map FieldError.field) fieldOrder := by
  unfold validateContactData fieldOrder
  simp only [List.map_append]
  exact (((((map_fieldErrOf_sublist _ _).append
    (map_fieldErrOf_sublist _ _)).append
    (map_fieldErrOf_sublist _ _)).append
    (map_fieldErrOf_sublist _ _)).append
    (map_fieldErrOf_sublist _ _)).append
    (map_fieldErrOf_sublist _ _)

/-- A field value that is missing (absent or null) or a whitespace-only
string. -/
def missingOrWs (v : JSVal) : Prop :=
  v = .undef ∨ v = .null ∨ ∃ s, v = .str s ∧ jsTrim s = ""

theorem reqMw_isSome_of_missingOrWs (v : JSVal) (rM tM eM lM : String) (k : Nat)
    (h : missingOrWs v) : ∃ m, requiredFieldMw v rM tM eM lM k = some m := by
  rcases h with rfl | rfl | ⟨s, rfl, hs⟩
  · exact ⟨rM, by simp [requiredFieldMw, JSVal.truthy]⟩
  · exact ⟨rM, by simp [requiredFieldMw, JSVal.truthy]⟩
  · by_cases hse : s = ""
    · subst hse
      exact ⟨rM, by simp [requiredFieldMw, JSVal.truthy]⟩
    · refine ⟨eM, ?_⟩
      simp [requiredFieldMw, JSVal.truthy, JSVal.isStr, JSVal.asStr, hse, hs]

theorem reqSvc_isSome_of_missingOrWs (v : JSVal) (rM eM lM : String) (k : Nat)
    (h : missingOrWs v) : ∃ m, requiredFieldSvc v rM eM lM k = some m := by
  rcases h with rfl | rfl | ⟨s, rfl, hs⟩
  · exact ⟨rM, by simp [requiredFieldSvc, JSVal.truthy]⟩
  · exact ⟨rM, by simp [requiredFieldSvc, JSVal.truthy]⟩
  · by_cases hse : s = ""
    · subst hse
      exact ⟨rM, by simp [requiredFieldSvc, JSVal.truthy]⟩
    · refine ⟨eM, ?_⟩
      simp [requiredFieldSvc, JSVal.truthy, JSVal.isStr, JSVal.asStr, hse, hs]

/-- C10: in both rule sets every field contributes at most one violation,
the violations appear in the fixed order firstName, lastName, email, phone,
company, notes (a sublist of `fieldOrder`), and hence the details array
never repeats a field. -/
theorem details_fields_ordered_nodup (p : Payload) :
    List.Sublist ((validateContact p).map FieldError.field) fieldOrder
    ∧ ((validateContact p).map FieldError.field).Nodup
    ∧ List.Sublist ((validateContactData p).map FieldError.field) fieldOrder
    ∧ ((validateContactData p).map FieldError.field).Nodup := by
  refine ⟨validateContact_field_sublist p, ?_,
          validateContactData_field_sublist p, ?_⟩
  · exact List.Nodup.sublist (validateContact_field_sublist p) (by decide)
  · exact List.Nodup.sublist (validateContactData_field_sublist p) (by decide)

theorem details_fields_ordered_nodup_wit :
    ((validateContact ⟨.undef, .num 3, .str "x", .str "y", .undef, .undef⟩).map
      FieldError.field).Nodup
    ∧ ((validateContactData ⟨.undef, .num 3, .str "x", .str "y", .undef, .undef⟩).map
      FieldError.field).Nodup :=
  ⟨(details_fields_ordered_nodup ⟨.undef, .num 3, .str "x", .str "y", .undef, .undef⟩).2.1,
   (details_fields_ordered_nodup ⟨.undef, .num 3, .str "x", .str "y", .undef, .undef⟩).2.2.2⟩

/-! ### C1: service update checks existence before validation and write -/

/-- C1: when the id has no existing contact, the service `update` raises
the 404 not-found error having issued only the `findById` lookup — for
every payload, valid or not — so the repository's update statement is never
reached; and when the contact exists but validation fails, the update
statement is likewise not issued. -/
theorem update_notFound_before_validation (store : Store) (id : Nat) (d : Payload)
    (h : store id = none) :
    ContactService.update store id d =
      (.error ⟨some 404, none, some "Contact not found", none, false, none⟩,
       store, [.findById id])
    ∧ RepoCall.updateRow id ∉ (ContactService.update store id d).2.2
    ∧ (∀ (store2 : Store) (id2 : Nat) (d2 : Payload) (c2 : Contact),
        store2 id2 = some c2 → validateContactData d2 ≠ [] →
        (ContactService.update store2 id2 d2).2.2 = [RepoCall.findById id2]) := by
  have h1 : ContactService.update store id d =
      (.error ⟨some 404, none, some "Contact not found", none, false, none⟩,
       store, [.findById id]) := by
    unfold ContactService.update
    rw [h]
  refine ⟨h1, ?_, ?_⟩
  · rw [h1]
    simp
  · intro store2 id2 d2 c2 hc hv
    unfold ContactService.update
    rw [hc]
    simp [hv]

theorem update_notFound_before_validation_wit :
    ContactService.update (fun _ => none) 999
        ⟨.undef, .undef, .undef, .undef, .undef, .undef⟩ =
      (.error ⟨some 404, none, some "Contact not found", none, false, none⟩,
       (fun _ => none), [.findById 999])
    ∧ RepoCall.updateRow 999 ∉
        (ContactService.update (fun _ => none) 999
          ⟨.undef, .undef, .undef, .undef, .undef, .undef⟩).2.2
    ∧ (ContactService.update
        (fun i => if i = 1 then some ⟨1, .str "A", .str "B", .null, .null, .null, .null⟩
                  else none)
        1 ⟨.undef, .undef, .undef, .undef, .undef, .undef⟩).2.2 =
      [RepoCall.findById 1] :=
  ⟨(update_notFound_before_validation (fun _ => none) 999 _ rfl).1,
   (update_notFound_before_validation (fun _ => none) 999 _ rfl).2.1,
   (update_notFound_before_validation (fun _ => none) 999
      ⟨.undef, .undef, .undef, .undef, .undef, .undef⟩ rfl).2.2
     (fun i => if i = 1 then some ⟨1, .str "A", .str "B", .null, .null, .null, .null⟩
               else none)
     1 ⟨.undef, .undef, .undef, .undef, .undef, .undef⟩
     ⟨1, .str "A", .str "B", .null, .null, .null, .null⟩ rfl (by decide)⟩

/-! ### C2: missing or whitespace-only names are rejected before the
repository -/

/-- C2: whenever `firstName` or `lastName` is missing or whitespace-only,
both rule sets record a violation for that field, and the service `create`
(and `update` on an existing id) answers the 400 validation error carrying
those details, leaving the store unchanged and issuing no write. -/
theorem create_update_reject_missing_names (store : Store) (nextId id : Nat)
    (c : Contact) (p : Payload) :
    (missingOrWs p.firstName →
      ((∃ e ∈ validateContactData p, e.field = "firstName") ∧
       (∃ e ∈ validateContact p, e.field = "firstName")))
  ∧ (missingOrWs p.lastName →
      ((∃ e ∈ validateContactData p, e.field = "lastName") ∧
       (∃ e ∈ validateContact p, e.field = "lastName")))
  ∧ (missingOrWs p.firstName ∨ missingOrWs p.lastName →
      (ContactService.create store nextId p =
        (.error ⟨some 400, none, some "Validation failed", none, false,
                 some (validateContactData p)⟩, store, [])
      ∧ (store id = some c →
         ContactService.update store id p =
           (.error ⟨some 400, none, some "Validation failed", none, false,
                    some (validateContactData p)⟩, store, [.findById id])))) := by
  have hf : missingOrWs p.firstName →
      (∃ e ∈ validateContactData p, e.field = "firstName") := by
    intro h
    obtain ⟨m, hm⟩ := reqSvc_isSome_of_missingOrWs p.firstName _ _ _ _ h
    have hm2 : firstNameMsgSvc p.firstName = some m := hm
    exact ⟨⟨"firstName", m⟩,
      by simp [validateContactData, List.mem_append, mem_fieldErrOf, hm2], rfl⟩
  have hfMw : missingOrWs p.firstName →
      (∃ e ∈ validateContact p, e.field = "firstName") := by
    intro h
    obtain ⟨m, hm⟩ := reqMw_isSome_of_missingOrWs p.firstName _ _ _ _ _ h
    have hm2 : firstNameMsgMw p.firstName = some m := hm
    exact ⟨⟨"firstName", m⟩,
      by simp [validateContact, List.mem_append, mem_fieldErrOf, hm2], rfl⟩
  have hl : missingOrWs p.lastName →
      (∃ e ∈ validateContactData p, e.field = "lastName") := by
    intro h
    obtain ⟨m, hm⟩ := reqSvc_isSome_of_missingOrWs p.lastName _ _ _ _ h
    have hm2 : lastNameMsgSvc p.lastName = some m := hm
    exact ⟨⟨"lastName", m⟩,
      by simp [validateContactData, List.mem_append, mem_fieldErrOf, hm2], rfl⟩
  have hlMw : missingOrWs p.lastName →
      (∃ e ∈ validateContact p, e.field = "lastName") := by
    intro h
    obtain ⟨m, hm⟩ := reqMw_isSome_of_missingOrWs p.lastName _ _ _ _ _ h
    have hm2 : lastNameMsgMw p.lastName = some m := hm
    exact ⟨⟨"lastName", m⟩,
      by simp [validateContact, List.mem_append, mem_fieldErrOf, hm2], rfl⟩
  refine ⟨fun h => ⟨hf h, hfMw h⟩, fun h => ⟨hl h, hlMw h⟩, fun h => ?_⟩
  have hne : validateContactData p ≠ [] := by
    rcases h with h | h
    · obtain ⟨e, he, _⟩ := hf h
      exact List.ne_nil_of_mem he
    · obtain ⟨e, he, _⟩ := hl h
      exact List.ne_nil_of_mem he
  constructor
  · unfold ContactService.create
    simp [hne]
  · intro hc
    unfold ContactService.update
    rw [hc]
    simp [hne]

theorem create_update_reject_missing_names_wit :
    ContactService.create (fun _ => none) 1
        ⟨.str "   ", .str "Doe", .undef, .undef, .undef, .undef⟩ =
      (.error ⟨some 400, none, some "Validation failed", none, false,
               some (validateContactData
                 ⟨.str "   ", .str "Doe", .undef, .undef, .undef, .undef⟩)⟩,
       (fun _ => none), [])
    ∧ (∃ e ∈ validateContactData
          ⟨.str "   ", .str "Doe", .undef, .undef, .undef, .undef⟩,
        e.field = "firstName")
    ∧ (∃ e ∈ validateContact
          ⟨.str "John", .str "", .undef, .undef, .undef, .undef⟩,
        e.field = "lastName")
    ∧ ContactService.update
        (fun i => if i = 1 then some ⟨1, .str "A", .str "B", .null, .null, .null, .null⟩
                  else none)
        1 ⟨.str "   ", .str "Doe", .undef, .undef, .undef, .undef⟩ =
      (.error ⟨some 400, none, some "Validation failed", none, false,
               some (validateContactData
                 ⟨.str "   ", .str "Doe", .undef, .undef, .undef, .undef⟩)⟩,
       (fun i => if i = 1 then some ⟨1, .str "A", .str "B", .null, .null, .null, .null⟩
                 else none),
       [.findById 1]) := by
  have h := create_update_reject_missing_names (fun _ => none) 1 1
    ⟨1, .undef, .undef, .undef, .undef, .undef, .undef⟩
    ⟨.str "   ", .str "Doe", .undef, .undef, .undef, .undef⟩
  have h2 := create_update_reject_missing_names
    (fun i => if i = 1 then some ⟨1, .str "A", .str "B", .null, .null, .null, .null⟩
              else none)
    1 1 ⟨1, .str "A", .str "B", .null, .null, .null, .null⟩
    ⟨.str "   ", .str "Doe", .undef, .undef, .undef, .undef⟩
  have h3 := create_update_reject_missing_names (fun _ => none) 1 1
    ⟨1, .undef, .undef, .undef, .undef, .undef, .undef⟩
    ⟨.str "John", .str "", .undef, .undef, .undef, .undef⟩
  have hmw : missingOrWs (JSVal.str "   ") :=
    Or.inr (Or.inr ⟨"   ", rfl, by decide⟩)
  have hmw2 : missingOrWs (JSVal.str "") :=
    Or.inr (Or.inr ⟨"", rfl, by decide⟩)
  exact ⟨(h.2.2 (Or.inl hmw)).1, (h.1 hmw).1, (h3.2.1 hmw2).2,
         (h2.2.2 (Or.inl hmw)).2 rfl⟩

/-! ### C3 and C4: the phone and email rules, middleware versus service -/

theorem toList_ne_nil {s : String} (h : s ≠ "") : s.toList ≠ [] := by
  intro hl
  exact h (String.toList_inj.mp (by rw [hl]; rfl))

theorem phone_violation_mw_iff (p : Payload) :
    (∃ e ∈ validateContact p, e.field = "phone") ↔
      (phoneMsgMw p.phone).isSome = true := by
  constructor
  · rintro ⟨e, he, hf⟩
    simp only [validateContact, List.mem_append, mem_fieldErrOf] at he
    rcases he with ((((⟨m, hm, rfl⟩ | ⟨m, hm, rfl⟩) | ⟨m, hm, rfl⟩) | ⟨m, hm, rfl⟩)
        | ⟨m, hm, rfl⟩) | ⟨m, hm, rfl⟩
    · simp at hf
    · simp at hf
    · simp at hf
    · rw [hm]; rfl
    · simp at hf
    · simp at hf
  · intro h
    obtain ⟨m, hm⟩ := Option.isSome_iff_exists.mp h
    refine ⟨⟨"phone", m⟩, ?_, rfl⟩
    simp [validateContact, List.mem_append, mem_fieldErrOf, hm]

theorem phone_violation_svc_iff (p : Payload) :
    (∃ e ∈ validateContactData p, e.field = "phone") ↔
      (phoneMsgSvc p.phone).isSome = true := by
  constructor
  · rintro ⟨e, he, hf⟩
    simp only [validateContactData, List.mem_append, mem_fieldErrOf] at he
    rcases he with ((((⟨m, hm, rfl⟩ | ⟨m, hm, rfl⟩) | ⟨m, hm, rfl⟩) | ⟨m, hm, rfl⟩)
        | ⟨m, hm, rfl⟩) | ⟨m, hm, rfl⟩
    · simp at hf
    · simp at hf
    · simp at hf
    · rw [hm]; rfl
    · simp at hf
    · simp at hf
  · intro h
    obtain ⟨m, hm⟩ := Option.isSome_iff_exists.mp h
    refine ⟨⟨"phone", m⟩, ?_, rfl⟩
    simp [validateContactData, List.mem_append, mem_fieldErrOf, hm]

theorem email_violation_svc_iff (p : Payload) :
    (∃ e ∈ validateContactData p, e.field = "email") ↔
      (emailMsgSvc p.email).isSome = true := by
  constructor
  · rintro ⟨e, he, hf⟩
    simp only [validateContactData, List.mem_append, mem_fieldErrOf] at he
    rcases he with ((((⟨m, hm, rfl⟩ | ⟨m, hm, rfl⟩) | ⟨m, hm, rfl⟩) | ⟨m, hm, rfl⟩)
        | ⟨m, hm, rfl⟩) | ⟨m, hm, rfl⟩
    · simp at hf
    · simp at hf
    · rw [hm]; rfl
    · simp at hf
    · simp at hf
    · simp at hf
  · intro h
    obtain ⟨m, hm⟩ := Option.isSome_iff_exists.mp h
    refine ⟨⟨"email", m⟩, ?_, rfl⟩
    simp [validateContactData, List.mem_append, mem_fieldErrOf, hm]

theorem isValidPhone_eq_true_iff (s : String) (hne : s ≠ "") :
    isValidPhone s = true ↔
      ((∀ c ∈ s.toList, phoneCharOk c = true) ∧
       10 ≤ (s.toList.filter Char.isDigit).length) := by
  obtain ⟨c0, r0, hl⟩ : ∃ c r, s.toList = c :: r := by
    cases hcl : s.toList with
    | nil => exact absurd hcl (toList_ne_nil hne)
    | cons a b => exact ⟨a, b, rfl⟩
  unfold isValidPhone
  rw [hl]
  simp [List.all_eq_true]

theorem isValidPhone_eq_false_iff (s : String) (hne : s ≠ "") :
    isValidPhone s = false ↔
      ((∃ c ∈ s.toList, phoneCharOk c = false) ∨
       (s.toList.filter Char.isDigit).length < 10) := by
  rw [← Bool.not_eq_true, isValidPhone_eq_true_iff s hne]
  constructor
  · intro h
    by_cases hall : ∀ c ∈ s.toList, phoneCharOk c = true
    · exact Or.inr (Nat.lt_of_not_le fun hge => h ⟨hall, hge⟩)
    · push_neg at hall
      obtain ⟨c, hc, hcc⟩ := hall
      cases hb : phoneCharOk c with
      | false => exact Or.inl ⟨c, hc, hb⟩
      | true => exact absurd hb hcc
  · rintro (⟨c, hc, hb⟩ | hlt) ⟨hall, hge⟩
    · rw [hall c hc] at hb
      cases hb
    · omega

/-- C3 (amended): for every payload whose `phone` is a present non-empty
string, the MIDDLEWARE rule set reports a violation for field phone iff the
string has a character outside digits, whitespace, `+`, `-`, `(`, `)` or
has fewer than 10 digit characters; the SERVICE rule set reports a phone
violation iff the string is longer than 20 characters, so it accepts a
letters-only phone (see the counterexample). -/
theorem phone_violation_mw_charact (p : Payload) (s : String)
    (hp : p.phone = .str s) (hne : s ≠ "") :
    ((∃ e ∈ validateContact p, e.field = "phone") ↔
      ((∃ c ∈ s.toList, phoneCharOk c = false) ∨
       (s.toList.filter Char.isDigit).length < 10))
    ∧ ((∃ e ∈ validateContactData p, e.field = "phone") ↔ 20 < s.length) := by
  constructor
  · rw [phone_violation_mw_iff, hp]
    have hpres : presentOpt (JSVal.str s) = true := by simp [presentOpt, hne]
    have hmsg : phoneMsgMw (JSVal.str s) =
        (if isValidPhone s = false then some "Invalid phone format" else none) := by
      simp [phoneMsgMw, hpres, JSVal.isStr, JSVal.asStr]
    rw [hmsg]
    by_cases hv : isValidPhone s = false
    · rw [if_pos hv]
      simp only [Option.isSome_some, true_iff]
      exact (isValidPhone_eq_false_iff s hne).mp hv
    · rw [if_neg hv]
      simp only [Option.isSome_none, Bool.false_eq_true, false_iff]
      rw [← isValidPhone_eq_false_iff s hne]
      exact hv
  · rw [phone_violation_svc_iff, hp]
    have hpres : presentOpt (JSVal.str s) = true := by simp [presentOpt, hne]
    have hmsg : phoneMsgSvc (JSVal.str s) =
        (if decide (20 < s.length) then some "Phone must not exceed 20 characters"
         else none) := by
      simp [phoneMsgSvc, hpres, jsLenGT]
    rw [hmsg]
    by_cases hl : 20 < s.length
    · simp [hl]
    · simp [hl]

theorem phone_violation_mw_charact_wit :
    (∃ e ∈ validateContact
        ⟨.str "John", .str "Doe", .undef, .str "12345", .undef, .undef⟩,
      e.field = "phone")
    ∧ (∃ e ∈ validateContactData
        ⟨.str "John", .str "Doe", .undef, .str "123456789012345678901", .undef, .undef⟩,
      e.field = "phone") :=
  ⟨(phone_violation_mw_charact
      ⟨.str "John", .str "Doe", .undef, .str "12345", .undef, .undef⟩
      "12345" rfl (by decide)).1.mpr (Or.inr (by decide)),
   (phone_violation_mw_charact
      ⟨.str "John", .str "Doe", .undef, .str "123456789012345678901", .undef, .undef⟩
      "123456789012345678901" rfl (by decide)).2.mpr (by decide)⟩

/-- C3 counterexample: a ten-character all-letters phone produces NO
violation from the service rule set `validateContactData`, although it
fails `isValidPhone` and has at least 10 characters. -/
theorem phone_letters_pass_svc_cex :
    validateContactData
        ⟨.str "John", .str "Doe", .undef, .str "abcdefghij", .undef, .undef⟩ = []
    ∧ isValidPhone "abcdefghij" = false
    ∧ 10 ≤ "abcdefghij".length :=
  ⟨by decide, by decide, by decide⟩

/-- C4 (amended): for every payload whose `email` is a present non-empty
string, the SERVICE rule set reports a violation for field email iff the
string fails the shape test or exceeds 100 characters.  (The middleware
rule set checks only the shape, so a valid-shaped 101-character email
passes the middleware; see the counterexample.) -/
theorem email_violation_svc_charact (p : Payload) (s : String)
    (hp : p.email = .str s) (hne : s ≠ "") :
    (∃ e ∈ validateContactData p, e.field = "email") ↔
      (isValidEmail s = false ∨ 100 < s.length) := by
  rw [email_violation_svc_iff, hp]
  have hpres : presentOpt (JSVal.str s) = true := by simp [presentOpt, hne]
  have hmsg : emailMsgSvc (JSVal.str s) =
      (if isValidEmail s = false then some "Invalid email format"
       else if decide (100 < s.length) then some "Email must not exceed 100 characters"
       else none) := by
    simp [emailMsgSvc, hpres, jsToString, jsLenGT]
  rw [hmsg]
  by_cases hv : isValidEmail s = false
  · simp [hv]
  · by_cases hlen : 100 < s.length
    · simp [hv, hlen]
    · simp [hv, hlen]

theorem email_violation_svc_charact_wit :
    ∃ e ∈ validateContactData
        ⟨.str "John", .str "Doe", .str "bad", .undef, .undef, .undef⟩,
      e.field = "email" :=
  (email_violation_svc_charact
    ⟨.str "John", .str "Doe", .str "bad", .undef, .undef, .undef⟩
    "bad" rfl (by decide)).mpr (Or.inl (by decide))

/-- C4 counterexample: a valid-shaped email of length 101 produces NO
violation from the middleware rule set `validateContact`. -/
theorem email_101_passes_mw_cex :
    validateContact
        ⟨.str "John", .str "Doe",
         .str "aaaaaaaaaaaaaaaaaaaaaaaaaaaaaaaaaaaaaaaaaaaaaaaaaaaaaaaaaaaaaaaaaaaaaaaaaaaaaaaaaaaaaaaaaaaaaaaa@b.co",
         .undef, .undef, .undef⟩ = []
    ∧ isValidEmail
        "aaaaaaaaaaaaaaaaaaaaaaaaaaaaaaaaaaaaaaaaaaaaaaaaaaaaaaaaaaaaaaaaaaaaaaaaaaaaaaaaaaaaaaaaaaaaaaaa@b.co" = true
    ∧ ("aaaaaaaaaaaaaaaaaaaaaaaaaaaaaaaaaaaaaaaaaaaaaaaaaaaaaaaaaaaaaaaaaaaaaaaaaaaaaaaaaaaaaaaaaaaaaaaa@b.co" : String).length = 101 :=
  ⟨by decide, by decide, by decide⟩

/-! ### C5: which non-string values receive the type-error message -/

theorem presentOpt_of_nonstr {v : JSVal} (h1 : v.isStr = false)
    (h2 : v ≠ .undef) (h3 : v ≠ .null) : presentOpt v = true := by
  cases v <;> simp_all [JSVal.isStr, presentOpt]

/-- C5 (amended): in the MIDDLEWARE rule set, a non-string value receives
the type-error message for each optional field whenever present, and for
the required name fields only when the value is truthy; a falsy non-string
value (such as `0` or `false`) for a required name field receives the
required message instead.  The SERVICE rule set gives the required message
for every non-string name value and emits no type-error message at all. -/
theorem nonstring_type_message_charact (p : Payload) :
    (p.firstName.isStr = false → p.firstName.truthy = true →
      (⟨"firstName", "First name must be a string"⟩ : FieldError) ∈ validateContact p)
  ∧ (p.firstName.isStr = false → p.firstName.truthy = false →
      (⟨"firstName", "First name is required"⟩ : FieldError) ∈ validateContact p)
  ∧ (p.lastName.isStr = false → p.lastName.truthy = true →
      (⟨"lastName", "Last name must be a string"⟩ : FieldError) ∈ validateContact p)
  ∧ (p.lastName.isStr = false → p.lastName.truthy = false →
      (⟨"lastName", "Last name is required"⟩ : FieldError) ∈ validateContact p)
  ∧ (p.email.isStr = false → p.email ≠ .undef → p.email ≠ .null →
      (⟨"email", "Email must be a string"⟩ : FieldError) ∈ validateContact p)
  ∧ (p.phone.isStr = false → p.phone ≠ .undef → p.phone ≠ .null →
      (⟨"phone", "Phone must be a string"⟩ : FieldError) ∈ validateContact p)
  ∧ (p.company.isStr = false → p.company ≠ .undef → p.company ≠ .null →
      (⟨"company", "Company must be a string"⟩ : FieldError) ∈ validateContact p)
  ∧ (p.notes.isStr = false → p.notes ≠ .undef → p.notes ≠ .null →
      (⟨"notes", "Notes must be a string"⟩ : FieldError) ∈ validateContact p)
  ∧ (p.firstName.isStr = false →
      (⟨"firstName", "First name is required"⟩ : FieldError) ∈ validateContactData p)
  ∧ (p.lastName.isStr = false →
      (⟨"lastName", "Last name is required"⟩ : FieldError) ∈ validateContactData p) := by
  refine ⟨?_, ?_, ?_, ?_, ?_, ?_, ?_, ?_, ?_, ?_⟩
  · intro h1 h2
    have hm : firstNameMsgMw p.firstName = some "First name must be a string" := by
      simp [firstNameMsgMw, requiredFieldMw, h1, h2]
    simp [validateContact, List.mem_append, mem_fieldErrOf, hm]
  · intro h1 h2
    have hm : firstNameMsgMw p.firstName = some "First name is required" := by
      simp [firstNameMsgMw, requiredFieldMw, h2]
    simp [validateContact, List.mem_append, mem_fieldErrOf, hm]
  · intro h1 h2
    have hm : lastNameMsgMw p.lastName = some "Last name must be a string" := by
      simp [lastNameMsgMw, requiredFieldMw, h1, h2]
    simp [validateContact, List.mem_append, mem_fieldErrOf, hm]
  · intro h1 h2
    have hm : lastNameMsgMw p.lastName = some "Last name is required" := by
      simp [lastNameMsgMw, requiredFieldMw, h2]
    simp [validateContact, List.mem_append, mem_fieldErrOf, hm]
  · intro h1 h2 h3
    have hm : emailMsgMw p.email = some "Email must be a string" := by
      simp [emailMsgMw, presentOpt_of_nonstr h1 h2 h3, h1]
    simp [validateContact, List.mem_append, mem_fieldErrOf, hm]
  · intro h1 h2 h3
    have hm : phoneMsgMw p.phone = some "Phone must be a string" := by
      simp [phoneMsgMw, presentOpt_of_nonstr h1 h2 h3, h1]
    simp [validateContact, List.mem_append, mem_fieldErrOf, hm]
  · intro h1 h2 h3
    have hm : companyMsgMw p.company = some "Company must be a string" := by
      simp [companyMsgMw, presentOpt_of_nonstr h1 h2 h3, h1]
    simp [validateContact, List.mem_append, mem_fieldErrOf, hm]
  · intro h1 h2 h3
    have hm : notesMsgMw p.notes = some "Notes must be a string" := by
      simp [notesMsgMw, presentOpt_of_nonstr h1 h2 h3, h1]
    simp [validateContact, List.mem_append, mem_fieldErrOf, hm]
  · intro h1
    have hm : firstNameMsgSvc p.firstName = some "First name is required" := by
      simp [firstNameMsgSvc, requiredFieldSvc, h1]
    simp [validateContactData, List.mem_append, mem_fieldErrOf, hm]
  · intro h1
    have hm : lastNameMsgSvc p.lastName = some "Last name is required" := by
      simp [lastNameMsgSvc, requiredFieldSvc, h1]
    simp [validateContactData, List.mem_append, mem_fieldErrOf, hm]

theorem nonstring_type_message_charact_wit :
    (⟨"firstName", "First name must be a string"⟩ : FieldError) ∈
      validateContact ⟨.num 5, .bool true, .num 0, .bool false, .num 7, .num 8⟩
    ∧ (⟨"firstName", "First name is required"⟩ : FieldError) ∈
      validateContact ⟨.num 0, .bool false, .undef, .undef, .undef, .undef⟩
    ∧ (⟨"lastName", "Last name must be a string"⟩ : FieldError) ∈
      validateContact ⟨.num 5, .bool true, .num 0, .bool false, .num 7, .num 8⟩
    ∧ (⟨"lastName", "Last name is required"⟩ : FieldError) ∈
      validateContact ⟨.num 0, .bool false, .undef, .undef, .undef, .undef⟩
    ∧ (⟨"email", "Email must be a string"⟩ : FieldError) ∈
      validateContact ⟨.num 5, .bool true, .num 0, .bool false, .num 7, .num 8⟩
    ∧ (⟨"phone", "Phone must be a string"⟩ : FieldError) ∈
      validateContact ⟨.num 5, .bool true, .num 0, .bool false, .num 7, .num 8⟩
    ∧ (⟨"company", "Company must be a string"⟩ : FieldError) ∈
      validateContact ⟨.num 5, .bool true, .num 0, .bool false, .num 7, .num 8⟩
    ∧ (⟨"notes", "Notes must be a string"⟩ : FieldError) ∈
      validateContact ⟨.num 5, .bool true, .num 0, .bool false, .num 7, .num 8⟩
    ∧ (⟨"firstName", "First name is required"⟩ : FieldError) ∈
      validateContactData ⟨.num 5, .bool true, .num 0, .bool false, .num 7, .num 8⟩
    ∧ (⟨"lastName", "Last name is required"⟩ : FieldError) ∈
      validateContactData ⟨.num 5, .bool true, .num 0, .bool false, .num 7, .num 8⟩ := by
  have h := nonstring_type_message_charact
    ⟨.num 5, .bool true, .num 0, .bool false, .num 7, .num 8⟩
  have h0 := nonstring_type_message_charact
    ⟨.num 0, .bool false, .undef, .undef, .undef, .undef⟩
  exact ⟨h.1 (by decide) (by decide),
         h0.2.1 (by decide) (by decide),
         h.2.2.1 (by decide) (by decide),
         h0.2.2.2.1 (by decide) (by decide),
         h.2.2.2.2.1 (by decide) (by decide) (by decide),
         h.2.2.2.2.2.1 (by decide) (by decide) (by decide),
         h.2.2.2.2.2.2.1 (by decide) (by decide) (by decide),
         h.2.2.2.2.2.2.2.1 (by decide) (by decide) (by decide),
         h.2.2.2.2.2.2.2.2.1 (by decide),
         h.2.2.2.2.2.2.2.2.2 (by decide)⟩

/-- C5 counterexample: a falsy non-string `firstName` (the number `0`)
receives the required message, not the type-error message, from the
middleware rule set. -/
theorem falsy_nonstring_required_cex :
    validateContact ⟨.num 0, .str "Doe", .undef, .undef, .undef, .undef⟩ =
      [⟨"firstName", "First name is required"⟩]
    ∧ (⟨"firstName", "First name must be a string"⟩ : FieldError) ∉
        validateContact ⟨.num 0, .str "Doe", .undef, .undef, .undef, .undef⟩ :=
  ⟨by decide, by decide⟩

/-! ### C6, C7, C9: the error classifier and sanitizer -/

/-- C6 (amended): the classifier's first-match decision order.  A truthy
(non-zero) `statusCode`, else a truthy `status`, is returned verbatim;
otherwise, on the lowercased message: "not found"/"does not exist" give 404
even when a storage-constraint code is present; then
"validation"/"invalid"/"required" give 400; then codes 23505/23503/23502
give 409/400/400; then "unauthorized"/"authentication" give 401 and
"forbidden"/"permission" give 403; only then is the default 500. -/
theorem getStatusCode_decision_order :
    (∀ (e : ErrObj) (n : Nat), e.statusCode = some n → n ≠ 0 →
      getStatusCode e = some n)
  ∧ (∀ (e : ErrObj) (n : Nat), e.statusCode = none → e.status = some n → n ≠ 0 →
      getStatusCode e = some n)
  ∧ (∀ (e : ErrObj) (m : String), e.statusCode = none → e.status = none →
      e.message = some m → strIncludes (lowerStr m) "not found" = true →
      getStatusCode e = some 404)
  ∧ (∀ (e : ErrObj) (m : String), e.statusCode = none → e.status = none →
      e.message = some m →
      strIncludes (lowerStr m) "not found" = false →
      strIncludes (lowerStr m) "does not exist" = false →
      (strIncludes (lowerStr m) "validation" = true ∨
       strIncludes (lowerStr m) "invalid" = true ∨
       strIncludes (lowerStr m) "required" = true) →
      getStatusCode e = some 400)
  ∧ (∀ (e : ErrObj) (m : String), e.statusCode = none → e.status = none →
      e.message = some m →
      strIncludes (lowerStr m) "not found" = false →
      strIncludes (lowerStr m) "does not exist" = false →
      strIncludes (lowerStr m) "validation" = false →
      strIncludes (lowerStr m) "invalid" = false →
      strIncludes (lowerStr m) "required" = false →
      e.code = some "23505" →
      getStatusCode e = some 409)
  ∧ (∀ (e : ErrObj) (m : String), e.statusCode = none → e.status = none →
      e.message = some m →
      strIncludes (lowerStr m) "not found" = false →
      strIncludes (lowerStr m) "does not exist" = false →
      strIncludes (lowerStr m) "validation" = false →
      strIncludes (lowerStr m) "invalid" = false →
      strIncludes (lowerStr m) "required" = false →
      e.code = some "23503" →
      getStatusCode e = some 400)
  ∧ (∀ (e : ErrObj) (m : String), e.statusCode = none → e.status = none →
      e.message = some m →
      strIncludes (lowerStr m) "not found" = false →
      strIncludes (lowerStr m) "does not exist" = false →
      strIncludes (lowerStr m) "validation" = false →
      strIncludes (lowerStr m) "invalid" = false →
      strIncludes (lowerStr m) "required" = false →
      e.code = some "23502" →
      getStatusCode e = some 400)
  ∧ (∀ (e : ErrObj) (m : String), e.statusCode = none → e.status = none →
      e.message = some m →
      strIncludes (lowerStr m) "not found" = false →
      strIncludes (lowerStr m) "does not exist" = false →
      strIncludes (lowerStr m) "validation" = false →
      strIncludes (lowerStr m) "invalid" = false →
      strIncludes (lowerStr m) "required" = false →
      e.code ≠ some "23505" → e.code ≠ some "23503" → e.code ≠ some "23502" →
      (strIncludes (lowerStr m) "unauthorized" = true ∨
       strIncludes (lowerStr m) "authentication" = true) →
      getStatusCode e = some 401)
  ∧ (∀ (e : ErrObj) (m : String), e.statusCode = none → e.status = none →
      e.message = some m →
      strIncludes (lowerStr m) "not found" = false →
      strIncludes (lowerStr m) "does not exist" = false →
      strIncludes (lowerStr m) "validation" = false →
      strIncludes (lowerStr m) "invalid" = false →
      strIncludes (lowerStr m) "required" = false →
      e.code ≠ some "23505" → e.code ≠ some "23503" → e.code ≠ some "23502" →
      strIncludes (lowerStr m) "unauthorized" = false →
      strIncludes (lowerStr m) "authentication" = false →
      (strIncludes (lowerStr m) "forbidden" = true ∨
       strIncludes (lowerStr m) "permission" = true) →
      getStatusCode e = some 403)
  ∧ (∀ (e : ErrObj) (m : String), e.statusCode = none → e.status = none →
      e.message = some m →
      strIncludes (lowerStr m) "not found" = false →
      strIncludes (lowerStr m) "does not exist" = false →
      strIncludes (lowerStr m) "validation" = false →
      strIncludes (lowerStr m) "invalid" = false →
      strIncludes (lowerStr m) "required" = false →
      e.code ≠ some "23505" → e.code ≠ some "23503" → e.code ≠ some "23502" →
      strIncludes (lowerStr m) "unauthorized" = false →
      strIncludes (lowerStr m) "authentication" = false →
      strIncludes (lowerStr m) "forbidden" = false →
      strIncludes (lowerStr m) "permission" = false →
      getStatusCode e = some 500) := by
  refine ⟨?_, ?_, ?_, ?_, ?_, ?_, ?_, ?_, ?_, ?_⟩
  · intro e n h hnz
    simp [getStatusCode, truthyNum, h, hnz]
  · intro e n h1 h2 hnz
    simp [getStatusCode, truthyNum, h1, h2, hnz]
  · intro e m h1 h2 hm hincl
    simp [getStatusCode, truthyNum, h1, h2, hm, hincl]
  · intro e m h1 h2 hm hnf hde hw
    rcases hw with hw | hw | hw <;>
      simp [getStatusCode, truthyNum, h1, h2, hm, hnf, hde, hw]
  · intro e m h1 h2 hm hnf hde hv hi hr hc
    simp [getStatusCode, truthyNum, h1, h2, hm, hnf, hde, hv, hi, hr, hc]
  · intro e m h1 h2 hm hnf hde hv hi hr hc
    simp [getStatusCode, truthyNum, h1, h2, hm, hnf, hde, hv, hi, hr, hc]
  · intro e m h1 h2 hm hnf hde hv hi hr hc
    simp [getStatusCode, truthyNum, h1, h2, hm, hnf, hde, hv, hi, hr, hc]
  · intro e m h1 h2 hm hnf hde hv hi hr hc1 hc2 hc3 hw
    rcases hw with hw | hw <;>
      simp [getStatusCode, truthyNum, h1, h2, hm, hnf, hde, hv, hi, hr,
            hc1, hc2, hc3, hw]
  · intro e m h1 h2 hm hnf hde hv hi hr hc1 hc2 hc3 hu ha hw
    rcases hw with hw | hw <;>
      simp [getStatusCode, truthyNum, h1, h2, hm, hnf, hde, hv, hi, hr,
            hc1, hc2, hc3, hu, ha, hw]
  · intro e m h1 h2 hm hnf hde hv hi hr hc1 hc2 hc3 hu ha hf hp
    simp [getStatusCode, truthyNum, h1, h2, hm, hnf, hde, hv, hi, hr,
          hc1, hc2, hc3, hu, ha, hf, hp]

theorem getStatusCode_decision_order_wit :
    getStatusCode ⟨some 418, none, some "x", none, false, none⟩ = some 418
  ∧ getStatusCode ⟨none, some 503, some "x", none, false, none⟩ = some 503
  ∧ getStatusCode ⟨none, none, some "Contact not found", some "23505", false, none⟩
      = some 404
  ∧ getStatusCode ⟨none, none, some "Invalid input", none, false, none⟩ = some 400
  ∧ getStatusCode ⟨none, none, some "boom", some "23505", false, none⟩ = some 409
  ∧ getStatusCode ⟨none, none, some "boom", some "23503", false, none⟩ = some 400
  ∧ getStatusCode ⟨none, none, some "boom", some "23502", false, none⟩ = some 400
  ∧ getStatusCode ⟨none, none, some "Unauthorized access", none, false, none⟩
      = some 401
  ∧ getStatusCode ⟨none, none, some "Permission denied", none, false, none⟩
      = some 403
  ∧ getStatusCode ⟨none, none, some "boom", none, false, none⟩ = some 500 := by
  have h := getStatusCode_decision_order
  refine ⟨h.1 _ 418 rfl (by decide),
          h.2.1 _ 503 rfl rfl (by decide),
          h.2.2.1 _ "Contact not found" rfl rfl rfl (by decide),
          h.2.2.2.1 _ "Invalid input" rfl rfl rfl (by decide) (by decide)
            (Or.inr (Or.inl (by decide))),
          h.2.2.2.2.1 _ "boom" rfl rfl rfl (by decide) (by decide) (by decide)
            (by decide) (by decide) rfl,
          h.2.2.2.2.2.1 _ "boom" rfl rfl rfl (by decide) (by decide) (by decide)
            (by decide) (by decide) rfl,
          h.2.2.2.2.2.2.1 _ "boom" rfl rfl rfl (by decide) (by decide) (by decide)
            (by decide) (by decide) rfl,
          h.2.2.2.2.2.2.2.1 _ "Unauthorized access" rfl rfl rfl (by decide)
            (by decide) (by decide) (by decide) (by decide) (by decide)
            (by decide) (by decide) (Or.inl (by decide)),
          h.2.2.2.2.2.2.2.2.1 _ "Permission denied" rfl rfl rfl (by decide)
            (by decide) (by decide) (by decide) (by decide) (by decide)
            (by decide) (by decide) (by decide) (by decide)
            (Or.inr (by decide)),
          h.2.2.2.2.2.2.2.2.2 _ "boom" rfl rfl rfl (by decide) (by decide)
            (by decide) (by decide) (by decide) (by decide) (by decide)
            (by decide) (by decide) (by decide) (by decide) (by decide)⟩

/-- C6 counterexample: an error carrying no status attribute, no
recognised storage code and none of the 404/400 keywords is NOT mapped to
the claimed default 500 — the classifier has an authorization step first
and answers 401. -/
theorem getStatusCode_unauthorized_cex :
    getStatusCode ⟨none, none, some "Unauthorized access", none, false, none⟩
        = some 401
    ∧ getStatusCode ⟨none, none, some "Unauthorized access", none, false, none⟩
        ≠ some 500 :=
  ⟨by decide, by decide⟩

/-- C7 (amended): for non-operational errors without a recognised
constraint code, a 5xx classification yields the generic
"Internal server error" body and a 4xx classification surfaces the original
message unchanged; but an operational error surfaces its original message
at any status, and a constraint-coded non-operational error gets its fixed
friendly message at any status. -/
theorem errorHandler_sanitization_charact :
    (∀ (e : ErrObj) (sc : Nat), e.isOperational = false →
      e.code ≠ some "23505" → e.code ≠ some "23503" → e.code ≠ some "23502" →
      getStatusCode e = some sc → 500 ≤ sc →
      errorHandler e = some ⟨sc, some "Internal server error", none⟩)
  ∧ (∀ (e : ErrObj) (sc : Nat), e.isOperational = false →
      e.code ≠ some "23505" → e.code ≠ some "23503" → e.code ≠ some "23502" →
      getStatusCode e = some sc → 400 ≤ sc → sc < 500 →
      errorHandler e = some ⟨sc, e.message,
        if e.details.isSome ∧ sc = 400 then e.details else none⟩)
  ∧ (∀ (e : ErrObj) (sc : Nat), e.isOperational = true →
      getStatusCode e = some sc →
      errorHandler e = some ⟨sc, e.message,
        if e.details.isSome ∧ sc = 400 then e.details else none⟩)
  ∧ (∀ (e : ErrObj) (sc : Nat), e.isOperational = false → e.code = some "23505" →
      getStatusCode e = some sc →
      errorHandler e = some ⟨sc, some "A record with this information already exists",
        if e.details.isSome ∧ sc = 400 then e.details else none⟩)
  ∧ (∀ (e : ErrObj) (sc : Nat), e.isOperational = false → e.code = some "23503" →
      getStatusCode e = some sc →
      errorHandler e = some ⟨sc, some "Referenced record does not exist",
        if e.details.isSome ∧ sc = 400 then e.details else none⟩)
  ∧ (∀ (e : ErrObj) (sc : Nat), e.isOperational = false → e.code = some "23502" →
      getStatusCode e = some sc →
      errorHandler e = some ⟨sc, some "Required field is missing",
        if e.details.isSome ∧ sc = 400 then e.details else none⟩) := by
  refine ⟨?_, ?_, ?_, ?_, ?_, ?_⟩
  · intro e sc hop hc1 hc2 hc3 hsc hge
    have h45 : ¬(400 ≤ sc ∧ sc < 500) := by omega
    have h400 : ¬(e.details.isSome = true ∧ sc = 400) := by
      rintro ⟨_, rfl⟩
      omega
    simp [errorHandler, hsc, sanitizeErrorMessage, hop, hc1, hc2, hc3, h45, h400]
  · intro e sc hop hc1 hc2 hc3 hsc hge hlt
    have h45 : 400 ≤ sc ∧ sc < 500 := ⟨hge, hlt⟩
    simp [errorHandler, hsc, sanitizeErrorMessage, hop, hc1, hc2, hc3, h45]
  · intro e sc hop hsc
    simp [errorHandler, hsc, sanitizeErrorMessage, hop]
  · intro e sc hop hc hsc
    simp [errorHandler, hsc, sanitizeErrorMessage, hop, hc]
  · intro e sc hop hc hsc
    have hne : e.code ≠ some "23505" := by
      rw [hc]
      simp
    simp [errorHandler, hsc, sanitizeErrorMessage, hop, hc, hne]
  · intro e sc hop hc hsc
    have hne1 : e.code ≠ some "23505" := by
      rw [hc]
      simp
    have hne2 : e.code ≠ some "23503" := by
      rw [hc]
      simp
    simp [errorHandler, hsc, sanitizeErrorMessage, hop, hc, hne1, hne2]

theorem errorHandler_sanitization_charact_wit :
    errorHandler ⟨none, none, some "Database connection failed", none, false, none⟩
      = some ⟨500, some "Internal server error", none⟩
  ∧ errorHandler ⟨none, none, some "Invalid input", none, false, none⟩
      = some ⟨400, some "Invalid input", none⟩
  ∧ errorHandler ⟨some 400, none, some "Custom operational error", none, true, none⟩
      = some ⟨400, some "Custom operational error", none⟩
  ∧ errorHandler ⟨none, none, some "boom", some "23505", false, none⟩
      = some ⟨409, some "A record with this information already exists", none⟩
  ∧ errorHandler ⟨none, none, some "boom", some "23503", false, none⟩
      = some ⟨400, some "Referenced record does not exist", none⟩
  ∧ errorHandler ⟨none, none, some "boom", some "23502", false, none⟩
      = some ⟨400, some "Required field is missing", none⟩ := by
  have h := errorHandler_sanitization_charact
  refine ⟨?_, ?_, ?_, ?_, ?_, ?_⟩
  · have := h.1 ⟨none, none, some "Database connection failed", none, false, none⟩
      500 rfl (by decide) (by decide) (by decide) (by decide) (by decide)
    simpa using this
  · have := h.2.1 ⟨none, none, some "Invalid input", none, false, none⟩
      400 rfl (by decide) (by decide) (by decide) (by decide) (by decide) (by decide)
    simpa using this
  · have := h.2.2.1 ⟨some 400, none, some "Custom operational error", none, true, none⟩
      400 rfl (by decide)
    simpa using this
  · have := h.2.2.2.1 ⟨none, none, some "boom", some "23505", false, none⟩
      409 rfl rfl (by decide)
    simpa using this
  · have := h.2.2.2.2.1 ⟨none, none, some "boom", some "23503", false, none⟩
      400 rfl rfl (by decide)
    simpa using this
  · have := h.2.2.2.2.2 ⟨none, none, some "boom", some "23502", false, none⟩
      400 rfl rfl (by decide)
    simpa using this

/-- C7 counterexample: an operational error classified 500 surfaces its
original message, not the generic "Internal server error". -/
theorem operational_500_message_cex :
    errorHandler ⟨some 500, none, some "secret failure", none, true, none⟩
        = some ⟨500, some "secret failure", none⟩
    ∧ (some "secret failure" : Option String) ≠ some "Internal server error" :=
  ⟨by decide, by decide⟩

/-- C9: an error value carrying neither `statusCode` nor `status` and no
string `message` makes `getStatusCode` — and hence the error-handling
middleware — throw (modelled by `none`) instead of returning the 500
default, whatever its `code`, `isOperational` or `details`. -/
theorem getStatusCode_throws_without_message (e : ErrObj)
    (h1 : e.statusCode = none) (h2 : e.status = none) (h3 : e.message = none) :
    getStatusCode e = none ∧ errorHandler e = none := by
  have hg : getStatusCode e = none := by
    simp [getStatusCode, truthyNum, h1, h2, h3]
  exact ⟨hg, by simp [errorHandler, hg]⟩

theorem getStatusCode_throws_without_message_wit :
    getStatusCode ⟨none, none, none, some "23505", true, some []⟩ = none
    ∧ errorHandler ⟨none, none, none, some "23505", true, some []⟩ = none :=
  getStatusCode_throws_without_message ⟨none, none, none, some "23505", true, some []⟩
    rfl rfl rfl

/-! ### C8: the id parameter validator accepts exactly canonical positive
decimals -/

theorem digitChar_isDigit : ∀ d, d < 10 → (Nat.digitChar d).isDigit = true := by
  decide

theorem digitChar_val : ∀ d, d < 10 → (Nat.digitChar d).toNat - 48 = d := by
  decide

theorem digitsVal_append (l : List Char) (c : Char) :
    digitsVal (l ++ [c]) = 10 * digitsVal l + (c.toNat - 48) := by
  unfold digitsVal
  rw [List.foldl_append]
  rfl

theorem natToDecAux_spec : ∀ (fuel n : Nat), n < fuel →
    natToDecAux fuel n ≠ [] ∧ (∀ c ∈ natToDecAux fuel n, c.isDigit = true) ∧
    digitsVal (natToDecAux fuel n) = n := by
  intro fuel
  induction fuel with
  | zero => intro n h; omega
  | succ f ih =>
    intro n h
    by_cases h10 : n < 10
    · unfold natToDecAux
      rw [if_pos h10]
      refine ⟨by simp, ?_, ?_⟩
      · intro c hc
        simp at hc
        subst hc
        exact digitChar_isDigit n h10
      · have h1 : digitsVal [Nat.digitChar n] = (Nat.digitChar n).toNat - 48 := by
          simp [digitsVal]
        rw [h1, digitChar_val n h10]
    · have hn0 : 0 < n := by omega
      have hdiv : n / 10 < f :=
        lt_of_lt_of_le (Nat.div_lt_self hn0 (by omega)) (by omega)
      obtain ⟨hne, hdig, hval⟩ := ih (n / 10) hdiv
      unfold natToDecAux
      rw [if_neg h10]
      refine ⟨by simp, ?_, ?_⟩
      · intro c hc
        rcases List.mem_append.mp hc with hc | hc
        · exact hdig c hc
        · simp at hc
          subst hc
          exact digitChar_isDigit (n % 10) (Nat.mod_lt _ (by omega))
      · rw [digitsVal_append, hval, digitChar_val (n % 10) (Nat.mod_lt _ (by omega))]
        omega

theorem natToDec_spec (n : Nat) :
    natToDec n ≠ [] ∧ (∀ c ∈ natToDec n, c.isDigit = true) ∧
    digitsVal (natToDec n) = n :=
  natToDecAux_spec (n + 1) n (Nat.lt_succ_self n)

theorem leadDigits_of_all (l : List Char) (h : ∀ c ∈ l, c.isDigit = true) :
    leadDigits l = l := by
  induction l with
  | nil => rfl
  | cons c r ih =>
    unfold leadDigits
    rw [if_pos (h c (by simp)), ih (fun c hc => h c (by simp [hc]))]

theorem parseNatPart_natToDec (n : Nat) : parseNatPart (natToDec n) = some n := by
  obtain ⟨hne, hdig, hval⟩ := natToDec_spec n
  unfold parseNatPart
  rw [leadDigits_of_all _ hdig, if_neg hne, hval]

theorem isDigit_not_jsWs {c : Char} (h : c.isDigit = true) : jsWs c = false := by
  cases hw : jsWs c with
  | false => rfl
  | true =>
    exfalso
    simp [jsWs] at hw
    rcases hw with ((((rfl | rfl) | rfl) | rfl) | rfl) | rfl <;>
      exact absurd h (by decide)

theorem isDigit_ne_plus {c : Char} (h : c.isDigit = true) : ¬(c = '+') := by
  rintro rfl
  exact absurd h (by decide)

theorem isDigit_ne_minus {c : Char} (h : c.isDigit = true) : ¬(c = '-') := by
  rintro rfl
  exact absurd h (by decide)

theorem parseInt10_natToString (n : Nat) :
    parseInt10 (natToString n) = some (n : Int) := by
  obtain ⟨hne, hdig, hval⟩ := natToDec_spec n
  obtain ⟨c, r, hl⟩ : ∃ c r, natToDec n = c :: r := by
    cases hcl : natToDec n with
    | nil => exact absurd hcl hne
    | cons a b => exact ⟨a, b, rfl⟩
  have hcd : c.isDigit = true := hdig c (by rw [hl]; simp)
  have htl : (natToString n).toList = natToDec n := rfl
  have hdrop : (c :: r).dropWhile jsWs = c :: r := by
    simp [List.dropWhile_cons, isDigit_not_jsWs hcd]
  unfold parseInt10
  rw [htl, hl, hdrop]
  simp only [parseIntChars]
  rw [if_neg (isDigit_ne_plus hcd), if_neg (isDigit_ne_minus hcd), ← hl,
    parseNatPart_natToDec]
  rfl

theorem natToString_ne_empty (n : Nat) : natToString n ≠ "" := by
  intro h
  have h2 : (natToString n).toList = [] := by rw [h]; rfl
  exact (natToDec_spec n).1 h2

/-- C8 (amended): `validateId` passes ONLY canonical decimal
representations of positive integers (digits only, no leading zeros, no
sign, no decimals, no surrounding whitespace), and passes EVERY canonical
decimal of a positive integer below `2^53` — the range where doubles are
exact, covering every id the serial column can assign.  Canonical decimals
of `2^53` or more may be rejected because `parseInt`'s double rounds (see
the counterexample).  Every other non-empty parameter gets the 400 error
with field `id` and message "ID must be a positive integer", and the empty
parameter gets the is-required message. -/
theorem validateId_decision (s : String) :
    (validateId s = .pass → ∃ n : Nat, 0 < n ∧ s = natToString n)
    ∧ (∀ n : Nat, 0 < n → n < 2 ^ 53 → s = natToString n →
        validateId s = .pass)
    ∧ (s = "" → validateId s =
        .fail 400 "Validation failed" [⟨"id", "ID parameter is required"⟩])
    ∧ (s ≠ "" → validateId s ≠ .pass → validateId s =
        .fail 400 "Validation failed" [⟨"id", "ID must be a positive integer"⟩]) := by
  refine ⟨?_, ?_, ?_, ?_⟩
  · intro hp
    unfold validateId at hp
    by_cases hse : s = ""
    · rw [if_pos hse] at hp
      exact absurd hp (by decide)
    · rw [if_neg hse] at hp
      cases hpi : parseInt10 s with
      | none =>
        rw [hpi] at hp
        have hp2 : IdResult.fail 400 "Validation failed"
            [⟨"id", "ID must be a positive integer"⟩] = IdResult.pass := hp
        cases hp2
      | some k =>
        rw [hpi] at hp
        have hp2 : (if jsParsedValue k ≤ 0 ∨ 10 ^ 21 ≤ (jsParsedValue k).toNat ∨
              natToString (jsParsedValue k).toNat ≠ s then
            IdResult.fail 400 "Validation failed"
              [⟨"id", "ID must be a positive integer"⟩]
          else IdResult.pass) = IdResult.pass := hp
        by_cases hcond : jsParsedValue k ≤ 0 ∨ 10 ^ 21 ≤ (jsParsedValue k).toNat ∨
            natToString (jsParsedValue k).toNat ≠ s
        · rw [if_pos hcond] at hp2
          cases hp2
        · push_neg at hcond
          obtain ⟨hk, _, hs⟩ := hcond
          exact ⟨(jsParsedValue k).toNat, by omega, hs.symm⟩
  · intro n hn hlt hs
    subst hs
    have hv : jsParsedValue (n : Int) = (n : Int) := by
      unfold jsParsedValue
      rw [if_neg (by omega), Int.natAbs_ofNat]
      unfold roundDouble
      rw [if_pos hlt]
    have hbig : (2 : Nat) ^ 53 < 10 ^ 21 := by decide
    have hc : ¬(jsParsedValue (n : Int) ≤ 0 ∨
        10 ^ 21 ≤ (jsParsedValue (n : Int)).toNat ∨
        natToString (jsParsedValue (n : Int)).toNat ≠ natToString n) := by
      rw [hv]
      rintro (h | h | h)
      · omega
      · rw [Int.toNat_ofNat] at h
        omega
      · apply h
        rw [Int.toNat_ofNat]
    unfold validateId
    rw [if_neg (natToString_ne_empty n), parseInt10_natToString n]
    show (if jsParsedValue (n : Int) ≤ 0 ∨
        10 ^ 21 ≤ (jsParsedValue (n : Int)).toNat ∨
        natToString (jsParsedValue (n : Int)).toNat ≠ natToString n then
        IdResult.fail 400 "Validation failed"
          [⟨"id", "ID must be a positive integer"⟩]
      else IdResult.pass) = IdResult.pass
    exact if_neg hc
  · intro hse
    unfold validateId
    rw [if_pos hse]
  · intro hse hnp
    unfold validateId at hnp ⊢
    rw [if_neg hse] at hnp ⊢
    cases hpi : parseInt10 s with
    | none => rfl
    | some k =>
      rw [hpi] at hnp
      have hnp2 : (if jsParsedValue k ≤ 0 ∨ 10 ^ 21 ≤ (jsParsedValue k).toNat ∨
            natToString (jsParsedValue k).toNat ≠ s then
          IdResult.fail 400 "Validation failed"
            [⟨"id", "ID must be a positive integer"⟩]
        else IdResult.pass) ≠ IdResult.pass := hnp
      show (if jsParsedValue k ≤ 0 ∨ 10 ^ 21 ≤ (jsParsedValue k).toNat ∨
            natToString (jsParsedValue k).toNat ≠ s then
          IdResult.fail 400 "Validation failed"
            [⟨"id", "ID must be a positive integer"⟩]
        else IdResult.pass) =
        IdResult.fail 400 "Validation failed"
          [⟨"id", "ID must be a positive integer"⟩]
      by_cases hcond : jsParsedValue k ≤ 0 ∨ 10 ^ 21 ≤ (jsParsedValue k).toNat ∨
          natToString (jsParsedValue k).toNat ≠ s
      · rw [if_pos hcond]
      · rw [if_neg hcond] at hnp2
        exact absurd rfl hnp2

theorem validateId_decision_wit :
    validateId "42" = .pass
    ∧ (∃ n : Nat, 0 < n ∧ "42" = natToString n)
    ∧ validateId "" =
        .fail 400 "Validation failed" [⟨"id", "ID parameter is required"⟩]
    ∧ validateId "007" =
        .fail 400 "Validation failed" [⟨"id", "ID must be a positive integer"⟩] :=
  ⟨(validateId_decision "42").2.1 42 (by decide) (by decide) (by decide),
   (validateId_decision "42").1
     ((validateId_decision "42").2.1 42 (by decide) (by decide) (by decide)),
   (validateId_decision "").2.2.1 rfl,
   (validateId_decision "007").2.2.2 (by decide) (by decide)⟩

/-- C8 counterexample: `"9007199254740993"` IS the canonical decimal
representation of the positive integer `2^53 + 1`, yet `validateId`
rejects it with the 400 error: `parseInt`'s double rounds the value to
`2^53` (ties to even) and the `toString()` round-trip comparison fails. -/
theorem validateId_large_canonical_cex :
    validateId "9007199254740993" =
      .fail 400 "Validation failed" [⟨"id", "ID must be a positive integer"⟩]
    ∧ "9007199254740993" = natToString 9007199254740993
    ∧ 0 < 9007199254740993
    ∧ roundDouble 9007199254740993 = 9007199254740992 :=
  ⟨by decide, by decide, by decide, by decide⟩

end ContactBook
